import Mathlib

/-!
Shallow embedding of the WPIS payment-intent verification core
(packages/core state machine, the Arbitrum chain-verification adapter,
the verifier SQLite store, and the orchestrator's status resolution),
with theorems checking the natural-language specification against it.

Modelling conventions:
* TypeScript `bigint` / `number` values become `Int`.
* ISO timestamp strings become `Int` instants (`Date.getTime`).
* `async` calls on the injected chain client become `Except RpcFailure`
  values: `.error` is a rejected promise.  A `try { ... } catch` region
  is a `match` on those `Except` values; crucially, in `verify` the
  native/erc20 sub-verification is returned from inside the `try`
  *without* `await` in the source, so its `.error` outcome is *not*
  routed through the catch — the embedding mirrors that exactly.
* Debug-only branches guarded by `DEBUG_WPIS` environment flags only log
  (or issue extra diagnostic queries whose results are discarded); the
  embedding models the production configuration with those flags unset.
* Address checksum normalisation (`viem.getAddress`) is an abstract
  function parameter `normalize`; theorems hold for every normaliser.
-/

/-- Payment lifecycle status (core/src/types.ts `PaymentStatus`). -/
inductive PaymentStatus where
  | PENDING
  | DETECTED
  | CONFIRMED
  | EXPIRED
  | FAILED
deriving DecidableEq, Repr, Fintype

open PaymentStatus

/-- Error taxonomy (core/src/errors.ts `WpisErrorCode`). -/
inductive WpisErrorCode where
  | VALIDATION_ERROR
  | RPC_ERROR
  | EXPIRED_ERROR
  | CONFIRMATION_PENDING
  | CHAIN_MISMATCH
deriving DecidableEq, Repr, Fintype

/-- core/src/errors.ts `WpisError` (code + message). -/
structure WpisError where
  code : WpisErrorCode
  message : String
deriving DecidableEq, Repr

/-- Rendering of a `PaymentStatus` in template strings. -/
def statusText : PaymentStatus → String
  | PENDING => "PENDING"
  | DETECTED => "DETECTED"
  | CONFIRMED => "CONFIRMED"
  | EXPIRED => "EXPIRED"
  | FAILED => "FAILED"

/-- core/src/state.ts `allowedTransitions` record. -/
def allowedTransitions : PaymentStatus → List PaymentStatus
  | PENDING => [DETECTED, CONFIRMED, EXPIRED, FAILED]
  | DETECTED => [CONFIRMED, EXPIRED, FAILED]
  | CONFIRMED => []
  | EXPIRED => []
  | FAILED => []

/-- core/src/state.ts `canTransition`: membership in the allowed list. -/
def canTransition (f t : PaymentStatus) : Bool :=
  (allowedTransitions f).contains t

/-- core/src/state.ts `transitionStatus`: returns `to` when legal, else
throws a `VALIDATION_ERROR` `WpisError` naming both statuses. -/
def transitionStatus (f t : PaymentStatus) : Except WpisError PaymentStatus :=
  if !canTransition f t then
    .error ⟨.VALIDATION_ERROR,
      "invalid status transition: " ++ statusText f ++ " -> " ++ statusText t⟩
  else
    .ok t

/-- The transition table exactly as the spec's section 4.1 lists it
(spec wording, for comparison against the code's `canTransition`). -/
def specTableAllows (f t : PaymentStatus) : Prop :=
  match f, t with
  | PENDING, DETECTED => True
  | PENDING, CONFIRMED => True
  | PENDING, EXPIRED => True
  | PENDING, FAILED => True
  | DETECTED, CONFIRMED => True
  | DETECTED, EXPIRED => True
  | DETECTED, FAILED => True
  | _, _ => False

instance : DecidablePred (fun p : PaymentStatus × PaymentStatus => specTableAllows p.1 p.2) := by
  intro p
  rcases p with ⟨f, t⟩
  cases f <;> cases t <;> simp [specTableAllows] <;> infer_instance

/-- Terminal states per the spec glossary: no outgoing transitions. -/
def isTerminal (s : PaymentStatus) : Bool :=
  match s with
  | CONFIRMED => true
  | EXPIRED => true
  | FAILED => true
  | _ => false

/-- Asset type (core/src/types.ts `AssetType`). -/
inductive AssetType where
  | native
  | erc20
deriving DecidableEq, Repr

/-- core/src/types.ts `PaymentAsset`. -/
structure PaymentAsset where
  symbol : String
  decimals : Int
  type : AssetType
  contractAddress : Option String
deriving DecidableEq, Repr

/-- core/src/types.ts `ConfirmationPolicy`. -/
structure ConfirmationPolicy where
  minConfirmations : Int
deriving DecidableEq, Repr

/-- core/src/types.ts `PaymentIntent` (timestamps as `Int` instants). -/
structure PaymentIntent where
  id : String
  createdAt : Int
  expiresAt : Int
  chainId : String
  asset : PaymentAsset
  recipient : String
  amount : String
  reference : String
  confirmationPolicy : ConfirmationPolicy
  status : PaymentStatus
deriving DecidableEq, Repr

/-- core/src/types.ts `CreateIntentInput`.  `expiresAt` is the parsed
`Date` value: `none` models an unparsable ISO string (`NaN`). -/
structure CreateIntentInput where
  chainId : Option String
  asset : PaymentAsset
  recipient : String
  amount : String
  reference : String
  expiresAt : Option Int
  confirmationPolicy : Option ConfirmationPolicy
deriving DecidableEq, Repr

/-- core/src/types.ts `VerificationResult`. -/
structure VerificationResult where
  status : PaymentStatus
  txHash : Option String := none
  confirmations : Option Int := none
  reason : Option String := none
  errorCode : Option WpisErrorCode := none
deriving DecidableEq, Repr

/-- core/src/expiry.ts `isExpired`: parsed expiry instant `≤` now. -/
def isExpired (expiresAt now : Int) : Bool :=
  expiresAt ≤ now

/-- core/src/expiry.ts `isIntentExpired`. -/
def isIntentExpired (intent : PaymentIntent) (now : Int) : Bool :=
  isExpired intent.expiresAt now

/-- JS falsy `!s.trim()`: the string is empty or all whitespace. -/
def isBlank (s : String) : Bool :=
  s.toList.all (fun c => c = ' ' || c = '\t' || c = '\n' || c = '\r')

/-- core/src/validation.ts `isValidEvmAddress`:
regex `^0x[a-fA-F0-9]{40}$`. -/
def isValidEvmAddress (value : String) : Bool :=
  value.toList.length = 42 && "0x".toList.isPrefixOf value.toList &&
    (value.toList.drop 2).all (fun c => c.isDigit || ('a' ≤ c && c ≤ 'f') || ('A' ≤ c && c ≤ 'F'))

/-- Decimal value of a digit string (`BigInt` of a `^\d+$` string). -/
def digitsToNat (value : String) : Nat :=
  value.toList.foldl (fun acc c => acc * 10 + c.toNat - '0'.toNat) 0

/-- core/src/validation.ts `isPositiveIntegerString`:
all digits and `BigInt(value) > 0`. -/
def isPositiveIntegerString (value : String) : Bool :=
  (!value.toList.isEmpty && value.toList.all Char.isDigit) && digitsToNat value > 0

/-- core/src/validation.ts `validateAsset` (throws `WpisError`). -/
def validateAsset (asset : PaymentAsset) : Except WpisError Unit :=
  if isBlank asset.symbol then
    .error ⟨.VALIDATION_ERROR, "asset.symbol is required"⟩
  else if asset.decimals < 0 then
    .error ⟨.VALIDATION_ERROR, "asset.decimals must be a non-negative integer"⟩
  else if asset.type = .erc20 then
    match asset.contractAddress with
    | none => .error ⟨.VALIDATION_ERROR, "asset.contractAddress is required for erc20 assets"⟩
    | some addr =>
      if !isValidEvmAddress addr then
        .error ⟨.VALIDATION_ERROR, "asset.contractAddress must be a valid EVM address"⟩
      else
        .ok ()
  else
    .ok ()

/-- core/src/validation.ts `validateCreateIntentInput`; `sysNow` is the
ambient clock (`Date.now()`). -/
def validateCreateIntentInput (sysNow : Int) (input : CreateIntentInput) :
    Except WpisError Unit := do
  validateAsset input.asset
  if isBlank input.reference then
    .error ⟨.VALIDATION_ERROR, "reference is required"⟩
  else if !isValidEvmAddress input.recipient then
    .error ⟨.VALIDATION_ERROR, "recipient must be a valid EVM address"⟩
  else if !isPositiveIntegerString input.amount then
    .error ⟨.VALIDATION_ERROR, "amount must be a positive integer string in base units"⟩
  else
    match input.expiresAt with
    | none => .error ⟨.VALIDATION_ERROR, "expiresAt must be a valid ISO datetime string"⟩
    | some expiresAt =>
      if expiresAt ≤ sysNow then
        .error ⟨.VALIDATION_ERROR, "expiresAt must be in the future"⟩
      else
        match input.confirmationPolicy with
        | some policy =>
          if policy.minConfirmations < 0 then
            .error ⟨.VALIDATION_ERROR, "confirmationPolicy.minConfirmations must be >= 0"⟩
          else
            .ok ()
        | none => .ok ()

/-- A rejected promise from the injected chain client (the adapter reads
only `error.message`). -/
structure RpcFailure where
  message : String
deriving DecidableEq, Repr

/-- adapter-arbitrum `EvmTransaction`. -/
structure EvmTransaction where
  hash : String
  toAddr : Option String
  value : Int
  blockNumber : Option Int
deriving DecidableEq, Repr

/-- adapter-arbitrum `EvmBlock`. -/
structure EvmBlock where
  transactions : List EvmTransaction
deriving DecidableEq, Repr

/-- adapter-arbitrum `Erc20TransferLog` (decoded `args`). -/
structure Erc20TransferLog where
  transactionHash : Option String
  blockNumber : Option Int
  argsTo : Option String
  argsValue : Option Int
deriving DecidableEq, Repr

/-- adapter-arbitrum `getLogs` query (`buildErc20TransferLogQuery`
output; the `Transfer` event/topic is fixed by the adapter). -/
structure LogQuery where
  address : String
  argsTo : String
  fromBlock : Int
  toBlock : Int
deriving DecidableEq, Repr

/-- adapter-arbitrum `EvmClient`: each method is an oracle whose
`.error` outcome models a rejected promise. -/
structure EvmClient where
  getChainId : Except RpcFailure Int
  getBlockNumber : Except RpcFailure Int
  getBlock : Int → Except RpcFailure EvmBlock
  getLogs : LogQuery → Except RpcFailure (List Erc20TransferLog)

/-- adapter-arbitrum `buildErc20TransferLogQuery`. -/
def buildErc20TransferLogQuery (contractAddress recipient : String) (fromBlock toBlock : Int) :
    LogQuery :=
  ⟨contractAddress, recipient, fromBlock, toBlock⟩

/-- adapter-arbitrum `computeScanRange`. -/
def computeScanRange (currentBlock scanBlocks : Int) : Int × Int :=
  (if currentBlock > scanBlocks then currentBlock - scanBlocks else 0, currentBlock)

/-- The hard-coded `DEFAULT_ARBITRUM_SEPOLIA_CHAIN_ID` constant. -/
def DEFAULT_ARBITRUM_SEPOLIA_CHAIN_ID : Int := 421614

/-- Adapter configuration established by the `ArbitrumAdapter`
constructor (`scanBlocks`, `expectedChainId`, the injected normaliser
standing for `viem.getAddress`). -/
structure AdapterConfig where
  scanBlocks : Int
  expectedChainId : Int
  normalize : String → String

/-- `this.expectedCaip2 = `eip155:${this.expectedChainId}``. -/
def AdapterConfig.expectedCaip2 (cfg : AdapterConfig) : String :=
  "eip155:" ++ toString cfg.expectedChainId

/-- adapter `toBigInt(intent.amount)` on a validated digit string. -/
def toBigIntM (amount : String) : Int :=
  (digitsToNat amount : Int)

/-- The native-path per-transaction matcher used in
`block.transactions.find(...)`: skip null `to`/`blockNumber`, then
normalized recipient equality and `value >= amount`. -/
def nativeTxMatches (normalize : String → String) (recipient : String) (minimumAmount : Int)
    (candidate : EvmTransaction) : Bool :=
  match candidate.toAddr, candidate.blockNumber with
  | none, _ => false
  | _, none => false
  | some toAddr, some _ => normalize toAddr = recipient && candidate.value ≥ minimumAmount

/-- The `verifyNative` block loop: from `blockNumber` downwards while
`blockNumber >= fromBlock` (fuel counts the remaining iterations), with
the in-loop `break` once a qualifying transaction with a non-null block
number is found (recording `{hash, confirmations}` with confirmations
computed from the transaction's own `blockNumber` field) and the final
`if (blockNumber === 0n) break`. -/
def nativeScanLoop (client : EvmClient) (normalize : String → String)
    (recipient : String) (minimumAmount : Int) (currentBlock : Int) :
    Nat → Int → Except RpcFailure (Option (String × Int))
  | 0, _ => .ok none
  | fuel + 1, blockNumber => do
    let block ← client.getBlock blockNumber
    match block.transactions.find? (nativeTxMatches normalize recipient minimumAmount) with
    | some tx =>
      match tx.blockNumber with
      | some txBlock => .ok (some (tx.hash, currentBlock - txBlock + 1))
      | none =>
        if blockNumber = 0 then .ok none
        else nativeScanLoop client normalize recipient minimumAmount currentBlock fuel (blockNumber - 1)
    | none =>
      if blockNumber = 0 then .ok none
      else nativeScanLoop client normalize recipient minimumAmount currentBlock fuel (blockNumber - 1)

/-- `ArbitrumAdapter.verifyNative`: scan then classify (PENDING when no
match, DETECTED + CONFIRMATION_PENDING below policy, else CONFIRMED). -/
def verifyNative (cfg : AdapterConfig) (client : EvmClient) (intent : PaymentIntent)
    (currentBlock fromBlock : Int) : Except RpcFailure VerificationResult := do
  let recipient := cfg.normalize intent.recipient
  let minimumAmount := toBigIntM intent.amount
  let detected ← nativeScanLoop client cfg.normalize recipient minimumAmount currentBlock
    ((currentBlock - fromBlock + 1).toNat) currentBlock
  match detected with
  | none =>
    .ok { status := PENDING, reason := some "matching transaction not found in scan range" }
  | some (hash, confirmations) =>
    if confirmations ≥ intent.confirmationPolicy.minConfirmations then
      .ok { status := CONFIRMED, txHash := some hash, confirmations := some confirmations }
    else
      .ok { status := DETECTED, txHash := some hash, confirmations := some confirmations,
            reason := some "confirmation policy not yet met",
            errorCode := some .CONFIRMATION_PENDING }

/-- Substring containment over character lists (JS `includes`). -/
def charsContain (pattern : List Char) : List Char → Bool
  | [] => pattern.isEmpty
  | c :: rest => pattern.isPrefixOf (c :: rest) || charsContain pattern rest

/-- ASCII lowering of one character (the range the adapter's
range-limit patterns live in). -/
def charLower (c : Char) : Char :=
  if 'A' ≤ c && c ≤ 'Z' then Char.ofNat (c.toNat + 32) else c

/-- JS `message.toLowerCase().includes(pattern)` (ASCII lowering). -/
def lowerIncludes (message pattern : String) : Bool :=
  charsContain pattern.toList (message.toList.map charLower)

/-- The `verifyErc20` range-limit detection over the error message. -/
def isRangeLimitMessage (message : String) : Bool :=
  lowerIncludes message "query returned more than" ||
  lowerIncludes message "block range" ||
  lowerIncludes message "response size exceeded" ||
  lowerIncludes message "limit exceeded"

/-- The erc20-path per-log matcher used in `logs.find(...)`. -/
def erc20LogMatches (normalize : String → String) (recipient : String) (minimumAmount : Int)
    (entry : Erc20TransferLog) : Bool :=
  match entry.blockNumber, entry.argsValue with
  | some _, some value =>
    (match entry.argsTo with
     | some toAddr => normalize toAddr = recipient
     | none => false) && value ≥ minimumAmount
  | _, _ => false

/-- `ArbitrumAdapter.verifyErc20`: missing contract address fails with
VALIDATION_ERROR; a `getLogs` rejection whose message matches a range
limit becomes FAILED/RPC_ERROR, any other rejection is re-thrown; a
qualifying log is classified like the native path. -/
def verifyErc20 (cfg : AdapterConfig) (client : EvmClient) (intent : PaymentIntent)
    (currentBlock fromBlock : Int) : Except RpcFailure VerificationResult :=
  match intent.asset.contractAddress with
  | none =>
    .ok { status := FAILED, reason := some "missing erc20 contract address",
          errorCode := some .VALIDATION_ERROR }
  | some rawContract =>
    let recipient := cfg.normalize intent.recipient
    let minimumAmount := toBigIntM intent.amount
    let contractAddress := cfg.normalize rawContract
    let query := buildErc20TransferLogQuery contractAddress recipient fromBlock currentBlock
    match client.getLogs query with
    | .error e =>
      if isRangeLimitMessage e.message then
        .ok { status := FAILED,
              reason := some "rpc eth_getLogs range limit encountered; reduce EVM_SCAN_BLOCKS or use DEBUG_WPIS chunk diagnostics",
              errorCode := some .RPC_ERROR }
      else
        .error e
    | .ok logs =>
      match logs.find? (erc20LogMatches cfg.normalize recipient minimumAmount) with
      | none =>
        .ok { status := PENDING, reason := some "matching transfer not found in scan range" }
      | some entry =>
        match entry.blockNumber, entry.transactionHash with
        | some matchBlock, some txHash =>
          let confirmations := currentBlock - matchBlock + 1
          if confirmations ≥ intent.confirmationPolicy.minConfirmations then
            .ok { status := CONFIRMED, txHash := some txHash, confirmations := some confirmations }
          else
            .ok { status := DETECTED, txHash := some txHash, confirmations := some confirmations,
                  reason := some "confirmation policy not yet met",
                  errorCode := some .CONFIRMATION_PENDING }
        | _, _ =>
          .ok { status := PENDING, reason := some "matching transfer not found in scan range" }

/-- The part of `ArbitrumAdapter.verify` after the intent-level chain
guard: expiry check, then the `try` region (chain-id query compared
against the hard-coded `DEFAULT_ARBITRUM_SEPOLIA_CHAIN_ID`, block-number
query, scan range) whose rejections the `catch` turns into
FAILED/RPC_ERROR — and the native/erc20 sub-verification returned from
inside the `try` *without* `await`, so its rejection bypasses the
`catch`. -/
def verifyRest (cfg : AdapterConfig) (client : EvmClient) (now : Int)
    (intent : PaymentIntent) : Except RpcFailure VerificationResult :=
  if isIntentExpired intent now then
    .ok { status := EXPIRED, reason := some "intent expired", errorCode := some .EXPIRED_ERROR }
  else
    match client.getChainId with
    | .error e =>
      .ok { status := FAILED, reason := some e.message, errorCode := some .RPC_ERROR }
    | .ok rpcChainId =>
      if rpcChainId ≠ DEFAULT_ARBITRUM_SEPOLIA_CHAIN_ID then
        .ok { status := FAILED,
              reason := some ("rpc chain mismatch: expected " ++
                toString DEFAULT_ARBITRUM_SEPOLIA_CHAIN_ID ++ ", got " ++ toString rpcChainId),
              errorCode := some .CHAIN_MISMATCH }
      else
        match client.getBlockNumber with
        | .error e =>
          .ok { status := FAILED, reason := some e.message, errorCode := some .RPC_ERROR }
        | .ok latestBlock =>
          let scanRange := computeScanRange latestBlock cfg.scanBlocks
          if intent.asset.type = .native then
            verifyNative cfg client intent latestBlock scanRange.1
          else
            verifyErc20 cfg client intent latestBlock scanRange.1

/-- `ArbitrumAdapter.verify`: the intent-level chain guard, then
`verifyRest`. -/
def verify (cfg : AdapterConfig) (client : EvmClient) (now : Int)
    (intent : PaymentIntent) : Except RpcFailure VerificationResult :=
  if intent.chainId ≠ cfg.expectedCaip2 then
    .ok { status := FAILED,
          reason := some ("intent chain mismatch: expected " ++ cfg.expectedCaip2),
          errorCode := some .CHAIN_MISMATCH }
  else
    verifyRest cfg client now intent

/-- `ArbitrumAdapter.createIntent`: validation, chain-id defaulting and
guard, reference-uniqueness check, expiry-after-now check, then the
constructed PENDING intent.  `sysNow` is `Date.now()` inside
`validateCreateIntentInput`, `nowT` the adapter's injected clock, and
`newId` the generated UUID. -/
def createIntent (cfg : AdapterConfig) (isReferenceUsed : String → Bool)
    (sysNow nowT : Int) (newId : String) (input : CreateIntentInput) :
    Except WpisError PaymentIntent := do
  validateCreateIntentInput sysNow input
  let chainId := input.chainId.getD cfg.expectedCaip2
  if chainId ≠ cfg.expectedCaip2 then
    .error ⟨.CHAIN_MISMATCH, "chainId must be " ++ cfg.expectedCaip2⟩
  else if isReferenceUsed input.reference then
    .error ⟨.VALIDATION_ERROR, "reference must be unique"⟩
  else
    match input.expiresAt with
    | none => .error ⟨.VALIDATION_ERROR, "expiresAt must be greater than current time"⟩
    | some expiresAt =>
      if expiresAt ≤ nowT then
        .error ⟨.VALIDATION_ERROR, "expiresAt must be greater than current time"⟩
      else
        .ok { id := newId
              createdAt := nowT
              expiresAt := expiresAt
              chainId := chainId
              asset := input.asset
              recipient := input.recipient
              amount := input.amount
              reference := input.reference
              confirmationPolicy :=
                ⟨(input.confirmationPolicy.map (·.minConfirmations)).getD 2⟩
              status := PENDING }

/-- verifier/src/server.ts `terminalStatuses` membership test. -/
def inTerminalStatuses (s : PaymentStatus) : Bool :=
  [CONFIRMED, FAILED, EXPIRED].contains s

/-- verifier/src/server.ts `resolveNextStatus`. -/
def resolveNextStatus (current : PaymentStatus) (verification : VerificationResult) :
    PaymentStatus :=
  if inTerminalStatuses current then current
  else if current = verification.status then current
  else if !canTransition current verification.status then current
  else verification.status

/-- verifier/src/db.ts `StoredIntent` row (including the table's
`updated_at` column; timestamps as `Int`). -/
structure StoredIntentRow where
  intent : PaymentIntent
  status : PaymentStatus
  txHash : Option String
  confirmations : Option Int
  lastCheckedAt : Option Int
  updatedAt : Int
deriving DecidableEq, Repr

/-- The `INTENT_VERIFIED` event payload written by `updateIntentStatus`
(`{...verification, status, txHash, confirmations, at}`). -/
structure EventPayload where
  status : PaymentStatus
  txHash : Option String
  confirmations : Option Int
  reason : Option String
  errorCode : Option WpisErrorCode
  atTime : Int
deriving DecidableEq, Repr

/-- verifier/src/db.ts `events` row. -/
structure EventRow where
  intentId : String
  type : String
  payload : EventPayload
deriving DecidableEq, Repr

/-- The verifier SQLite database state: the `intents` table keyed by id
(primary key, so an association list) and the append-only `events`
table. -/
structure DbState where
  intents : List (String × StoredIntentRow)
  events : List EventRow
deriving DecidableEq, Repr

/-- verifier/src/db.ts `getIntent`: row lookup by primary key. -/
def getIntentRow (s : DbState) (id : String) : Option StoredIntentRow :=
  (s.intents.find? (fun kv => kv.1 = id)).map (·.2)

/-- verifier/src/db.ts `updateIntentStatus` (with the call's wall-clock
instant `now` made explicit): no-op returning false on an unknown id or
an illegal move; otherwise writes the merged row, appends an
`INTENT_VERIFIED` event, and returns whether the status changed. -/
def updateIntentStatus (id : String) (status : PaymentStatus)
    (verification : VerificationResult) (now : Int) (s : DbState) : Bool × DbState :=
  match getIntentRow s id with
  | none => (false, s)
  | some current =>
    let canMoveToStatus := current.status = status || canTransition current.status status
    if !canMoveToStatus then
      (false, s)
    else
      let statusChanged := current.status ≠ status
      let nextStatus := if statusChanged then status else current.status
      let updatedIntent :=
        if statusChanged then { current.intent with status := nextStatus } else current.intent
      let nextTxHash := verification.txHash.orElse (fun _ => current.txHash)
      let nextConfirmations := verification.confirmations.orElse (fun _ => current.confirmations)
      let newRow : StoredIntentRow :=
        { intent := updatedIntent
          status := nextStatus
          txHash := nextTxHash
          confirmations := nextConfirmations
          lastCheckedAt := some now
          updatedAt := now }
      let event : EventRow :=
        { intentId := id
          type := "INTENT_VERIFIED"
          payload :=
            { status := nextStatus
              txHash := nextTxHash
              confirmations := nextConfirmations
              reason := verification.reason
              errorCode := verification.errorCode
              atTime := now } }
      (statusChanged,
       { intents := s.intents.map (fun kv => if kv.1 = id then (kv.1, newRow) else kv)
         events := s.events ++ [event] })

/-- One recorded `updateIntentStatus` call (target status, verification
result, wall-clock instant). -/
structure UpdateCall where
  id : String
  status : PaymentStatus
  verification : VerificationResult
  now : Int

/-- A sequence of `updateIntentStatus` calls applied to the store. -/
def applyUpdates (calls : List UpdateCall) (s : DbState) : DbState :=
  calls.foldl (fun acc call =>
    (updateIntentStatus call.id call.status call.verification call.now acc).2) s

/-- Progress rank of a status along the lifecycle's total order:
PENDING < DETECTED < terminal. -/
def statusRank (s : PaymentStatus) : Nat :=
  match s with
  | PENDING => 0
  | DETECTED => 1
  | _ => 2

deriving instance DecidableEq for Except

/-- Descending block list `[b, b-1, ..., b-n+1]`, the order in which
the native scan loop visits the window. -/
def descRangeLen : Int → Nat → List Int
  | _, 0 => []
  | b, n + 1 => b :: descRangeLen (b - 1) n

/-- A chain whose `getBlock` answers are well formed: every transaction
reported for block `b` carries `blockNumber = b`. -/
def blocksWellFormed (blocksF : Int → List EvmTransaction) : Prop :=
  ∀ b tx, tx ∈ blocksF b → tx.blockNumber = some b

/-- The native-path outcome as the spec words it: scan the window from
`latest` down to `floor` most-recent-first, pick the first transaction
of the newest block holding a qualifying one, confirmations
`latest − matchBlock + 1`, then classify against `minConf`. -/
def specNativeOutcome (blocksF : Int → List EvmTransaction) (normalize : String → String)
    (recipient : String) (minimumAmount : Int) (latest floor minConf : Int) :
    VerificationResult :=
  match (descRangeLen latest ((latest - floor + 1).toNat)).findSome?
      (fun blk => ((blocksF blk).find? (nativeTxMatches normalize recipient minimumAmount)).map
        (fun tx => (blk, tx))) with
  | none =>
    { status := PENDING, reason := some "matching transaction not found in scan range" }
  | some (blk, tx) =>
    if latest - blk + 1 ≥ minConf then
      { status := CONFIRMED, txHash := some tx.hash, confirmations := some (latest - blk + 1) }
    else
      { status := DETECTED, txHash := some tx.hash, confirmations := some (latest - blk + 1),
        reason := some "confirmation policy not yet met",
        errorCode := some .CONFIRMATION_PENDING }

/-- One legal per-id store step: the status stays or moves along
`canTransition`. -/
def legalStep (a b : PaymentStatus) : Prop :=
  a = b ∨ canTransition a b = true

/-- C6: for every pair `(from, to)`, `canTransition` agrees with the
section 4.1 table (successors of PENDING are DETECTED/CONFIRMED/EXPIRED/
FAILED, of DETECTED are CONFIRMED/EXPIRED/FAILED, terminal states have
none, and there are no self-transitions); `transitionStatus` returns `to`
exactly on legal pairs and otherwise fails with a VALIDATION_ERROR-kind
error whose message identifies `from` and `to`. -/
theorem c6_state_machine_matches_table :
    ∀ f t : PaymentStatus,
      (canTransition f t = true ↔ specTableAllows f t)
      ∧ (canTransition f t = true → f ≠ t)
      ∧ (canTransition f t = true →
          transitionStatus f t = .ok t)
      ∧ (canTransition f t = false →
          transitionStatus f t =
            .error ⟨.VALIDATION_ERROR,
              "invalid status transition: " ++ statusText f ++ " -> " ++ statusText t⟩) := by
  intro f t
  cases f <;> cases t <;>
    simp [canTransition, allowedTransitions, specTableAllows, transitionStatus, statusText]

/-- Closed instantiation of `c6_state_machine_matches_table` discharging
its conditional parts at concrete statuses. -/
theorem c6_state_machine_matches_table_witness :
    transitionStatus PENDING DETECTED = .ok DETECTED
    ∧ transitionStatus CONFIRMED PENDING =
        .error ⟨.VALIDATION_ERROR, "invalid status transition: CONFIRMED -> PENDING"⟩ :=
  ⟨(c6_state_machine_matches_table PENDING DETECTED).2.2.1 (by decide),
   by
    have h := (c6_state_machine_matches_table CONFIRMED PENDING).2.2.2 (by decide)
    simpa [statusText] using h⟩

/-- Looking up `id` after the `UPDATE ... WHERE id = @id` row rewrite:
the found row (if any) becomes the new row. -/
theorem find_after_update {α : Type} (l : List (String × α)) (id : String) (newRow : α) :
    (l.map (fun kv => if kv.1 = id then (kv.1, newRow) else kv)).find?
        (fun kv => kv.1 = id) =
      (l.find? (fun kv => kv.1 = id)).map (fun kv => (kv.1, newRow)) := by
  induction l with
  | nil => simp
  | cons a l ih =>
    by_cases h : a.1 = id
    · simp [List.find?, h]
    · simp [List.find?, h, ih]

/-- No transition leaves a terminal state. -/
theorem canTransition_of_terminal : ∀ a b : PaymentStatus,
    isTerminal a = true → canTransition a b = false := by decide

/-- Every legal transition strictly advances the lifecycle rank. -/
theorem canTransition_statusRank : ∀ a b : PaymentStatus,
    canTransition a b = true → statusRank a < statusRank b := by decide

/-- A legal store step never lowers the lifecycle rank. -/
theorem legalStep_statusRank {a b : PaymentStatus} (h : legalStep a b) :
    statusRank a ≤ statusRank b := by
  rcases h with rfl | h
  · exact le_refl _
  · exact le_of_lt (canTransition_statusRank a b h)

/-- A legal store step out of a terminal state is the identity. -/
theorem legalStep_terminal {a b : PaymentStatus} (ht : isTerminal a = true)
    (h : legalStep a b) : b = a := by
  rcases h with rfl | h
  · rfl
  · exact absurd h (by simp [canTransition_of_terminal a b ht])

/-- C5: for every intent whose `chainId` matches the adapter
configuration and whose expiry instant is at or before `now`, `verify`
returns the EXPIRED result for *every* chain client — the expiry check
precedes all RPC calls, so no reported on-chain state can change the
outcome. -/
theorem c5_expiry_precedes_rpc (cfg : AdapterConfig) (client : EvmClient) (now : Int)
    (intent : PaymentIntent) (hchain : intent.chainId = cfg.expectedCaip2)
    (hexpired : isIntentExpired intent now = true) :
    verify cfg client now intent =
      .ok { status := EXPIRED, reason := some "intent expired",
            errorCode := some .EXPIRED_ERROR } := by
  unfold verify verifyRest
  simp [hchain, hexpired]

/-- Closed instantiation of `c5_expiry_precedes_rpc`: an expired,
chain-matching intent is EXPIRED even on a client that would report a
confirmed-looking chain (or fail every call). -/
theorem c5_expiry_precedes_rpc_witness :
    verify ⟨500, 421614, fun s => s⟩
        ⟨.error ⟨"node unreachable"⟩, .error ⟨"node unreachable"⟩,
         fun _ => .error ⟨"node unreachable"⟩, fun _ => .error ⟨"node unreachable"⟩⟩
        100
        { id := "i1", createdAt := 0, expiresAt := 100, chainId := "eip155:421614",
          asset := ⟨"ETH", 18, .native, none⟩,
          recipient := "0x1111111111111111111111111111111111111111",
          amount := "100", reference := "ref-1",
          confirmationPolicy := ⟨2⟩, status := PENDING } =
      .ok { status := EXPIRED, reason := some "intent expired",
            errorCode := some .EXPIRED_ERROR } :=
  c5_expiry_precedes_rpc _ _ _ _ (by decide) (by decide)

/-- C2 (failing input): the RPC chain-id guard in `verify` compares the
reported id against the hard-coded Arbitrum Sepolia constant `421614`,
not the adapter's configured `expectedChainId`.  For an adapter
configured for Arbitrum One (`42161`) and an unexpired intent on that
same chain, a client correctly reporting `42161` is rejected with
FAILED/CHAIN_MISMATCH, while a client reporting `421614` — which
*disagrees* with the configuration — sails through the guard into the
block scan. -/
theorem c2_rpc_chain_guard_ignores_configuration :
    verify ⟨10, 42161, fun s => s⟩
        ⟨.ok 42161, .ok 100, fun _ => .ok ⟨[]⟩, fun _ => .ok []⟩ 50
        { id := "i1", createdAt := 0, expiresAt := 1000, chainId := "eip155:42161",
          asset := ⟨"ETH", 18, .native, none⟩,
          recipient := "0x1111111111111111111111111111111111111111",
          amount := "100", reference := "ref-1",
          confirmationPolicy := ⟨2⟩, status := PENDING } =
      .ok { status := FAILED,
            reason := some "rpc chain mismatch: expected 421614, got 42161",
            errorCode := some .CHAIN_MISMATCH }
    ∧ verify ⟨10, 42161, fun s => s⟩
        ⟨.ok 421614, .ok 100, fun _ => .ok ⟨[]⟩, fun _ => .ok []⟩ 50
        { id := "i1", createdAt := 0, expiresAt := 1000, chainId := "eip155:42161",
          asset := ⟨"ETH", 18, .native, none⟩,
          recipient := "0x1111111111111111111111111111111111111111",
          amount := "100", reference := "ref-1",
          confirmationPolicy := ⟨2⟩, status := PENDING } =
      .ok { status := PENDING,
            reason := some "matching transaction not found in scan range" } := by
  constructor <;> decide

/-- C3 (failing input): because `verify` returns the native/erc20
sub-verification from inside its `try` without `await`, a `getBlock`
rejection on the native path and a non-range-limit `getLogs` rejection
on the erc20 path (which `verifyErc20` re-throws) escape the
FAILED/RPC_ERROR `catch` and propagate to the caller as exceptions;
only the awaited `getChainId`/`getBlockNumber` failures are converted
to FAILED/RPC_ERROR as the spec demands for *all* chain-client
failures. -/
theorem c3_scan_rpc_failures_escape_catch :
    verify ⟨10, 421614, fun s => s⟩
        ⟨.ok 421614, .ok 100, fun _ => .error ⟨"connection refused"⟩,
         fun _ => .error ⟨"connection refused"⟩⟩ 50
        { id := "i1", createdAt := 0, expiresAt := 1000, chainId := "eip155:421614",
          asset := ⟨"ETH", 18, .native, none⟩,
          recipient := "0x1111111111111111111111111111111111111111",
          amount := "100", reference := "ref-1",
          confirmationPolicy := ⟨2⟩, status := PENDING } =
      .error ⟨"connection refused"⟩
    ∧ verify ⟨10, 421614, fun s => s⟩
        ⟨.ok 421614, .ok 100, fun _ => .error ⟨"connection refused"⟩,
         fun _ => .error ⟨"connection refused"⟩⟩ 50
        { id := "i2", createdAt := 0, expiresAt := 1000, chainId := "eip155:421614",
          asset := ⟨"USDC", 6, .erc20, some "0x2222222222222222222222222222222222222222"⟩,
          recipient := "0x1111111111111111111111111111111111111111",
          amount := "100", reference := "ref-2",
          confirmationPolicy := ⟨2⟩, status := PENDING } =
      .error ⟨"connection refused"⟩
    ∧ verify ⟨10, 421614, fun s => s⟩
        ⟨.error ⟨"node down"⟩, .ok 100, fun _ => .ok ⟨[]⟩, fun _ => .ok []⟩ 50
        { id := "i1", createdAt := 0, expiresAt := 1000, chainId := "eip155:421614",
          asset := ⟨"ETH", 18, .native, none⟩,
          recipient := "0x1111111111111111111111111111111111111111",
          amount := "100", reference := "ref-1",
          confirmationPolicy := ⟨2⟩, status := PENDING } =
      .ok { status := FAILED, reason := some "node down", errorCode := some .RPC_ERROR } := by
  refine ⟨by decide, by decide, by decide⟩

/-- `getIntent` after the row rewrite performed by `updateIntentStatus`:
whatever row was found for `id` is replaced by the new row. -/
theorem getIntentRow_map_update (l : List (String × StoredIntentRow)) (E : List EventRow)
    (id : String) (newRow : StoredIntentRow) :
    getIntentRow ⟨l.map (fun kv => if kv.1 = id then (kv.1, newRow) else kv), E⟩ id =
      (l.find? (fun kv => kv.1 = id)).map (fun _ => newRow) := by
  unfold getIntentRow
  rw [find_after_update]
  cases l.find? (fun kv => kv.1 = id) <;> simp


theorem updateIntentStatus_apply (s : DbState) (id : String) (st : PaymentStatus)
    (v : VerificationResult) (now : Int) (row : StoredIntentRow)
    (hrow : getIntentRow s id = some row)
    (hmv : (decide (row.status = st) || canTransition row.status st) = true) :
    updateIntentStatus id st v now s =
      (decide (row.status ≠ st),
       { intents := s.intents.map (fun kv => if kv.1 = id then (kv.1,
           { intent := if row.status = st then row.intent
                       else { row.intent with
                              status := if row.status = st then row.status else st }
             status := if row.status = st then row.status else st
             txHash := v.txHash.orElse (fun _ => row.txHash)
             confirmations := v.confirmations.orElse (fun _ => row.confirmations)
             lastCheckedAt := some now
             updatedAt := now }) else kv)
         events := s.events ++ [⟨id, "INTENT_VERIFIED",
           ⟨if row.status = st then row.status else st,
            v.txHash.orElse (fun _ => row.txHash),
            v.confirmations.orElse (fun _ => row.confirmations),
            v.reason, v.errorCode, now⟩⟩] }) := by
  simp only [updateIntentStatus, hrow, hmv]
  simp

/-- The no-move branches of `updateIntentStatus` (unknown id or illegal
move) return `(false, s)` unchanged. -/
theorem updateIntentStatus_noop_unknown (s : DbState) (id : String) (st : PaymentStatus)
    (v : VerificationResult) (now : Int) (hrow : getIntentRow s id = none) :
    updateIntentStatus id st v now s = (false, s) := by
  simp [updateIntentStatus, hrow]

theorem updateIntentStatus_noop_illegal (s : DbState) (id : String) (st : PaymentStatus)
    (v : VerificationResult) (now : Int) (row : StoredIntentRow)
    (hrow : getIntentRow s id = some row)
    (hmv : (decide (row.status = st) || canTransition row.status st) = false) :
    updateIntentStatus id st v now s = (false, s) := by
  simp only [updateIntentStatus, hrow, hmv]
  simp

/-- One `updateIntentStatus` call moves a stored intent's status along a
legal step (identity or `canTransition`), and the row stays present. -/
theorem updateIntentStatus_legalStep (s : DbState) (id : String) (st : PaymentStatus)
    (v : VerificationResult) (now : Int) (row : StoredIntentRow)
    (hrow : getIntentRow s id = some row) :
    ∃ row', getIntentRow (updateIntentStatus id st v now s).2 id = some row'
      ∧ legalStep row.status row'.status := by
  by_cases hmv : (decide (row.status = st) || canTransition row.status st) = true
  · have hfind : ∃ kv, s.intents.find? (fun x => x.1 = id) = some kv ∧ kv.2 = row := by
      unfold getIntentRow at hrow
      rcases Option.map_eq_some'.mp hrow with ⟨kv, hkv, hkv2⟩
      exact ⟨kv, hkv, hkv2⟩
    rcases hfind with ⟨kv, hkv, hkv2⟩
    rw [updateIntentStatus_apply s id st v now row hrow hmv]
    refine ⟨{ intent := if row.status = st then row.intent
                        else { row.intent with
                               status := if row.status = st then row.status else st }
              status := if row.status = st then row.status else st
              txHash := v.txHash.orElse (fun _ => row.txHash)
              confirmations := v.confirmations.orElse (fun _ => row.confirmations)
              lastCheckedAt := some now
              updatedAt := now }, ?_, ?_⟩
    · rw [getIntentRow_map_update, hkv]
      rfl
    · by_cases hst : row.status = st
      · simp [legalStep, hst]
      · have hct : canTransition row.status st = true := by
          rcases (Bool.or_eq_true _ _).mp hmv with h | h
          · exact absurd (of_decide_eq_true h) hst
          · exact h
        right
        simpa [hst] using hct
  · rw [updateIntentStatus_noop_illegal s id st v now row hrow (Bool.not_eq_true _ ▸ eq_false_of_ne_true hmv)]
    exact ⟨row, hrow, Or.inl rfl⟩

/-- The row rewrite for a different id leaves a lookup untouched. -/
theorem find_after_update_ne {α : Type} (l : List (String × α)) (id id2 : String)
    (newRow : α) (hne : id2 ≠ id) :
    (l.map (fun kv => if kv.1 = id2 then (kv.1, newRow) else kv)).find?
        (fun kv => kv.1 = id) =
      l.find? (fun kv => kv.1 = id) := by
  induction l with
  | nil => simp
  | cons a l ih =>
    by_cases h2 : a.1 = id2
    · simp [List.find?, h2, hne, Ne.symm hne, ih]
    · by_cases ha : a.1 = id
      · simp [List.find?, h2, ha, Ne.symm hne]
      · simp [List.find?, h2, ha, Ne.symm hne, ih]

/-- One `updateIntentStatus` call — for whatever target id — moves any
stored intent's status along a legal step. -/
theorem updateIntentStatus_legalStep_any (s : DbState) (cid : String) (st : PaymentStatus)
    (v : VerificationResult) (now : Int) (id : String) (row : StoredIntentRow)
    (hrow : getIntentRow s id = some row) :
    ∃ row', getIntentRow (updateIntentStatus cid st v now s).2 id = some row'
      ∧ legalStep row.status row'.status := by
  by_cases hid : cid = id
  · subst hid
    exact updateIntentStatus_legalStep s cid st v now row hrow
  · cases hcur : getIntentRow s cid with
    | none =>
      rw [updateIntentStatus_noop_unknown s cid st v now hcur]
      exact ⟨row, hrow, Or.inl rfl⟩
    | some rowc =>
      by_cases hmv : (decide (rowc.status = st) || canTransition rowc.status st) = true
      · rw [updateIntentStatus_apply s cid st v now rowc hcur hmv]
        refine ⟨row, ?_, Or.inl rfl⟩
        unfold getIntentRow at hrow ⊢
        rw [find_after_update_ne _ _ _ _ hid]
        exact hrow
      · rw [updateIntentStatus_noop_illegal s cid st v now rowc hcur
          (Bool.not_eq_true _ ▸ eq_false_of_ne_true hmv)]
        exact ⟨row, hrow, Or.inl rfl⟩

/-- Any sequence of `updateIntentStatus` calls keeps every stored
intent's status rank monotone and never leaves a terminal status. -/
theorem applyUpdates_monotone (calls : List UpdateCall) :
    ∀ (s : DbState) (id : String) (row : StoredIntentRow), getIntentRow s id = some row →
      ∃ row', getIntentRow (applyUpdates calls s) id = some row'
        ∧ statusRank row.status ≤ statusRank row'.status
        ∧ (isTerminal row.status = true → row'.status = row.status) := by
  induction calls with
  | nil =>
    intro s id row h
    exact ⟨row, h, le_refl _, fun _ => rfl⟩
  | cons c cs ih =>
    intro s id row h
    rcases updateIntentStatus_legalStep_any s c.id c.status c.verification c.now id row h with
      ⟨row1, h1, hstep⟩
    rcases ih _ id row1 h1 with ⟨row', h', hrank, hterm⟩
    refine ⟨row', ?_, le_trans (legalStep_statusRank hstep) hrank, ?_⟩
    · simpa [applyUpdates] using h'
    · intro ht
      have heq : row1.status = row.status := legalStep_terminal ht hstep
      rw [hterm (heq ▸ ht), heq]

/-- C1: the status `resolveNextStatus` resolves is always the current
status itself or one legal per `canTransition` from it; the
`updateIntentStatus` guard likewise only ever rewrites a stored status
to itself or a `canTransition`-successor; consequently, over any
sequence of verification attempts, a stored intent's status rank
(PENDING < DETECTED < terminal) never decreases and a terminal status
is never left. -/
theorem c1_status_never_regresses :
    (∀ (current : PaymentStatus) (v : VerificationResult),
      resolveNextStatus current v = current
        ∨ canTransition current (resolveNextStatus current v) = true)
    ∧ (∀ (s : DbState) (id : String) (st : PaymentStatus) (v : VerificationResult)
        (now : Int) (row : StoredIntentRow), getIntentRow s id = some row →
        ∃ row', getIntentRow (updateIntentStatus id st v now s).2 id = some row'
          ∧ (row'.status = row.status ∨ canTransition row.status row'.status = true))
    ∧ (∀ (calls : List UpdateCall) (s : DbState) (id : String) (row : StoredIntentRow),
        getIntentRow s id = some row →
        ∃ row', getIntentRow (applyUpdates calls s) id = some row'
          ∧ statusRank row.status ≤ statusRank row'.status
          ∧ (isTerminal row.status = true → row'.status = row.status)) := by
  refine ⟨?_, ?_, applyUpdates_monotone⟩
  · intro current v
    unfold resolveNextStatus
    split_ifs with h1 h2 h3
    · exact Or.inl rfl
    · exact Or.inl rfl
    · exact Or.inl rfl
    · right
      simpa using h3
  · intro s id st v now row hrow
    rcases updateIntentStatus_legalStep s id st v now row hrow with ⟨row', h', hs⟩
    refine ⟨row', h', ?_⟩
    rcases hs with h | h
    · exact Or.inl h.symm
    · exact Or.inr h

/-- Closed instantiation of `c1_status_never_regresses`: a PENDING
intent driven through DETECTED and CONFIRMED attempts keeps a
monotone rank, and the guard's conclusion holds at that input. -/
theorem c1_status_never_regresses_witness :
    ∃ row', getIntentRow
        (applyUpdates
          [⟨"i", DETECTED, { status := DETECTED }, 1⟩,
           ⟨"i", CONFIRMED, { status := CONFIRMED }, 2⟩]
          ⟨[("i",
             { intent := { id := "i", createdAt := 0, expiresAt := 1000,
                           chainId := "eip155:421614",
                           asset := ⟨"ETH", 18, .native, none⟩,
                           recipient := "0x1111111111111111111111111111111111111111",
                           amount := "100", reference := "ref-1",
                           confirmationPolicy := ⟨2⟩, status := PENDING },
               status := PENDING, txHash := none, confirmations := none,
               lastCheckedAt := none, updatedAt := 0 })], []⟩) "i" = some row'
      ∧ statusRank PENDING ≤ statusRank row'.status
      ∧ (isTerminal PENDING = true → row'.status = PENDING) :=
  c1_status_never_regresses.2.2
    [⟨"i", DETECTED, { status := DETECTED }, 1⟩,
     ⟨"i", CONFIRMED, { status := CONFIRMED }, 2⟩]
    ⟨[("i",
       { intent := { id := "i", createdAt := 0, expiresAt := 1000,
                           chainId := "eip155:421614",
                           asset := ⟨"ETH", 18, .native, none⟩,
                           recipient := "0x1111111111111111111111111111111111111111",
                           amount := "100", reference := "ref-1",
                           confirmationPolicy := ⟨2⟩, status := PENDING },
               status := PENDING, txHash := none, confirmations := none,
               lastCheckedAt := none, updatedAt := 0 })], []⟩ "i"
    ({ intent := { id := "i", createdAt := 0, expiresAt := 1000,
                           chainId := "eip155:421614",
                           asset := ⟨"ETH", 18, .native, none⟩,
                           recipient := "0x1111111111111111111111111111111111111111",
                           amount := "100", reference := "ref-1",
                           confirmationPolicy := ⟨2⟩, status := PENDING },
               status := PENDING, txHash := none, confirmations := none,
               lastCheckedAt := none, updatedAt := 0 })
    (by rfl)

/-- Unpack a successful `getIntent` into the underlying table hit. -/
theorem getIntentRow_find (s : DbState) (id : String) (row : StoredIntentRow)
    (hrow : getIntentRow s id = some row) :
    ∃ kv, s.intents.find? (fun x => x.1 = id) = some kv ∧ kv.2 = row := by
  unfold getIntentRow at hrow
  rcases Option.map_eq_some'.mp hrow with ⟨kv, hkv, hkv2⟩
  exact ⟨kv, hkv, hkv2⟩

/-- When the move is accepted, the stored row afterwards carries exactly
the target status. -/
theorem updateIntentStatus_status_after (s : DbState) (id : String) (st : PaymentStatus)
    (v : VerificationResult) (now : Int) (row : StoredIntentRow)
    (hrow : getIntentRow s id = some row)
    (hmv : (decide (row.status = st) || canTransition row.status st) = true) :
    ∃ row', getIntentRow (updateIntentStatus id st v now s).2 id = some row'
      ∧ row'.status = st := by
  rcases getIntentRow_find s id row hrow with ⟨kv, hkv, hkv2⟩
  rw [updateIntentStatus_apply s id st v now row hrow hmv]
  refine ⟨{ intent := if row.status = st then row.intent
                      else { row.intent with
                             status := if row.status = st then row.status else st }
            status := if row.status = st then row.status else st
            txHash := v.txHash.orElse (fun _ => row.txHash)
            confirmations := v.confirmations.orElse (fun _ => row.confirmations)
            lastCheckedAt := some now
            updatedAt := now }, ?_, ?_⟩
  · rw [getIntentRow_map_update, hkv]
    rfl
  · by_cases hst : row.status = st <;> simp [hst]

/-- A call whose target equals the current status reports no change. -/
theorem updateIntentStatus_changed_false_of_eq (s : DbState) (id : String)
    (st : PaymentStatus) (v : VerificationResult) (now : Int) (row : StoredIntentRow)
    (hrow : getIntentRow s id = some row) (hst : row.status = st) :
    (updateIntentStatus id st v now s).1 = false := by
  rw [updateIntentStatus_apply s id st v now row hrow (by simp [hst])]
  simp [hst]

/-- C7 refuted as stated: `updateIntentStatus` with target equal to the
current status returns false yet is *not* a no-op — here a call
targeting PENDING on a PENDING row returns false while merging a new
txHash into the row, stamping `lastCheckedAt`, and appending an
`INTENT_VERIFIED` event. -/
theorem c7_counterexample :
    (updateIntentStatus "i" PENDING { status := PENDING, txHash := some "0xabc" } 5
      ⟨[("i",
         { intent := { id := "i", createdAt := 0, expiresAt := 1000,
                       chainId := "eip155:421614",
                       asset := ⟨"ETH", 18, .native, none⟩,
                       recipient := "0x1111111111111111111111111111111111111111",
                       amount := "100", reference := "ref-1",
                       confirmationPolicy := ⟨2⟩, status := PENDING },
           status := PENDING, txHash := none, confirmations := none,
           lastCheckedAt := none, updatedAt := 0 })], []⟩).1 = false
    ∧ (updateIntentStatus "i" PENDING { status := PENDING, txHash := some "0xabc" } 5
      ⟨[("i",
         { intent := { id := "i", createdAt := 0, expiresAt := 1000,
                       chainId := "eip155:421614",
                       asset := ⟨"ETH", 18, .native, none⟩,
                       recipient := "0x1111111111111111111111111111111111111111",
                       amount := "100", reference := "ref-1",
                       confirmationPolicy := ⟨2⟩, status := PENDING },
           status := PENDING, txHash := none, confirmations := none,
           lastCheckedAt := none, updatedAt := 0 })], []⟩).2 ≠
      ⟨[("i",
         { intent := { id := "i", createdAt := 0, expiresAt := 1000,
                       chainId := "eip155:421614",
                       asset := ⟨"ETH", 18, .native, none⟩,
                       recipient := "0x1111111111111111111111111111111111111111",
                       amount := "100", reference := "ref-1",
                       confirmationPolicy := ⟨2⟩, status := PENDING },
           status := PENDING, txHash := none, confirmations := none,
           lastCheckedAt := none, updatedAt := 0 })], []⟩ := by
  constructor <;> decide

/-- C7 amended: `updateIntentStatus` returns true exactly when the id
is known, the current status differs from the target, and the
transition is legal (so it returns false on an unknown id, an equal
status — metadata changed or not — and any illegal move); on a true
return it persists the target status and merges
txHash/confirmations/lastCheckedAt and appends the audit event; and it
is idempotent in the changed flag: a repeated call with the same target
status always reports false (though a false-returning equal-status call
still merges metadata rather than being a pure no-op). -/
theorem c7_update_changed_iff_and_idempotent :
    (∀ (s : DbState) (id : String) (st : PaymentStatus) (v : VerificationResult) (now : Int),
      (updateIntentStatus id st v now s).1 = true ↔
        ∃ row, getIntentRow s id = some row ∧ row.status ≠ st
          ∧ canTransition row.status st = true)
    ∧ (∀ (s : DbState) (id : String) (st : PaymentStatus) (v : VerificationResult)
        (now : Int) (row : StoredIntentRow), getIntentRow s id = some row →
        row.status ≠ st → canTransition row.status st = true →
          getIntentRow (updateIntentStatus id st v now s).2 id =
            some { intent := { row.intent with status := st }
                   status := st
                   txHash := v.txHash.orElse (fun _ => row.txHash)
                   confirmations := v.confirmations.orElse (fun _ => row.confirmations)
                   lastCheckedAt := some now
                   updatedAt := now }
          ∧ (updateIntentStatus id st v now s).2.events =
              s.events ++ [⟨id, "INTENT_VERIFIED",
                ⟨st, v.txHash.orElse (fun _ => row.txHash),
                 v.confirmations.orElse (fun _ => row.confirmations),
                 v.reason, v.errorCode, now⟩⟩])
    ∧ (∀ (s : DbState) (id : String) (st : PaymentStatus) (v v' : VerificationResult)
        (now now' : Int),
        (updateIntentStatus id st v' now'
          (updateIntentStatus id st v now s).2).1 = false) := by
  refine ⟨?_, ?_, ?_⟩
  · intro s id st v now
    constructor
    · intro hc
      cases hrow : getIntentRow s id with
      | none =>
        rw [updateIntentStatus_noop_unknown s id st v now hrow] at hc
        exact absurd hc (by simp)
      | some row =>
        by_cases hmv : (decide (row.status = st) || canTransition row.status st) = true
        · rw [updateIntentStatus_apply s id st v now row hrow hmv] at hc
          have hne : row.status ≠ st := of_decide_eq_true hc
          refine ⟨row, rfl, hne, ?_⟩
          rcases (Bool.or_eq_true _ _).mp hmv with h | h
          · exact absurd (of_decide_eq_true h) hne
          · exact h
        · rw [updateIntentStatus_noop_illegal s id st v now row hrow
            (Bool.not_eq_true _ ▸ eq_false_of_ne_true hmv)] at hc
          exact absurd hc (by simp)
    · rintro ⟨row, hrow, hne, hct⟩
      rw [updateIntentStatus_apply s id st v now row hrow (by simp [hct])]
      simpa using hne
  · intro s id st v now row hrow hne hct
    rcases getIntentRow_find s id row hrow with ⟨kv, hkv, hkv2⟩
    rw [updateIntentStatus_apply s id st v now row hrow (by simp [hct])]
    constructor
    · rw [getIntentRow_map_update, hkv]
      simp [hne]
    · simp [hne]
  · intro s id st v v' now now'
    cases hrow : getIntentRow s id with
    | none =>
      rw [updateIntentStatus_noop_unknown s id st v now hrow]
      rw [updateIntentStatus_noop_unknown s id st v' now' hrow]
    | some row =>
      by_cases hmv : (decide (row.status = st) || canTransition row.status st) = true
      · rcases updateIntentStatus_status_after s id st v now row hrow hmv with
          ⟨row1, h1, hs1⟩
        exact updateIntentStatus_changed_false_of_eq _ id st v' now' row1 h1 hs1
      · rw [updateIntentStatus_noop_illegal s id st v now row hrow
          (Bool.not_eq_true _ ▸ eq_false_of_ne_true hmv)]
        rw [updateIntentStatus_noop_illegal s id st v' now' row hrow
          (Bool.not_eq_true _ ▸ eq_false_of_ne_true hmv)]

/-- Closed instantiation of `c7_update_changed_iff_and_idempotent`: a
legal PENDING→DETECTED move reports true and persists the merged row,
and repeating the same target reports false. -/
theorem c7_update_changed_iff_and_idempotent_witness :
    getIntentRow
        (updateIntentStatus "i" DETECTED { status := DETECTED, txHash := some "0xabc" } 5
          ⟨[("i",
             { intent := { id := "i", createdAt := 0, expiresAt := 1000,
                           chainId := "eip155:421614",
                           asset := ⟨"ETH", 18, .native, none⟩,
                           recipient := "0x1111111111111111111111111111111111111111",
                           amount := "100", reference := "ref-1",
                           confirmationPolicy := ⟨2⟩, status := PENDING },
               status := PENDING, txHash := none, confirmations := none,
               lastCheckedAt := none, updatedAt := 0 })], []⟩).2 "i" =
      some { intent := { id := "i", createdAt := 0, expiresAt := 1000,
                         chainId := "eip155:421614",
                         asset := ⟨"ETH", 18, .native, none⟩,
                         recipient := "0x1111111111111111111111111111111111111111",
                         amount := "100", reference := "ref-1",
                         confirmationPolicy := ⟨2⟩, status := DETECTED }
             status := DETECTED
             txHash := some "0xabc"
             confirmations := none
             lastCheckedAt := some 5
             updatedAt := 5 } := by
  have h := c7_update_changed_iff_and_idempotent.2.1
    ⟨[("i",
       { intent := { id := "i", createdAt := 0, expiresAt := 1000,
                     chainId := "eip155:421614",
                     asset := ⟨"ETH", 18, .native, none⟩,
                     recipient := "0x1111111111111111111111111111111111111111",
                     amount := "100", reference := "ref-1",
                     confirmationPolicy := ⟨2⟩, status := PENDING },
         status := PENDING, txHash := none, confirmations := none,
         lastCheckedAt := none, updatedAt := 0 })], []⟩
    "i" DETECTED { status := DETECTED, txHash := some "0xabc" } 5
    { intent := { id := "i", createdAt := 0, expiresAt := 1000,
                  chainId := "eip155:421614",
                  asset := ⟨"ETH", 18, .native, none⟩,
                  recipient := "0x1111111111111111111111111111111111111111",
                  amount := "100", reference := "ref-1",
                  confirmationPolicy := ⟨2⟩, status := PENDING },
      status := PENDING, txHash := none, confirmations := none,
      lastCheckedAt := none, updatedAt := 0 }
    (by rfl) (by decide) (by decide)
  exact h.1

/-- C8 refuted as stated: a terminal (CONFIRMED) row hit with a
CONFIRMED-target call returns false, but the stored record is *not*
left entirely unchanged — confirmations are merged and lastCheckedAt
stamped — and an `INTENT_VERIFIED` event *is* appended. -/
theorem c8_counterexample :
    (updateIntentStatus "i" CONFIRMED { status := CONFIRMED, confirmations := some 5 } 7
      ⟨[("i",
         { intent := { id := "i", createdAt := 0, expiresAt := 1000,
                       chainId := "eip155:421614",
                       asset := ⟨"ETH", 18, .native, none⟩,
                       recipient := "0x1111111111111111111111111111111111111111",
                       amount := "100", reference := "ref-1",
                       confirmationPolicy := ⟨2⟩, status := CONFIRMED },
           status := CONFIRMED, txHash := some "0xabc", confirmations := none,
           lastCheckedAt := none, updatedAt := 0 })], []⟩).1 = false
    ∧ ((updateIntentStatus "i" CONFIRMED { status := CONFIRMED, confirmations := some 5 } 7
      ⟨[("i",
         { intent := { id := "i", createdAt := 0, expiresAt := 1000,
                       chainId := "eip155:421614",
                       asset := ⟨"ETH", 18, .native, none⟩,
                       recipient := "0x1111111111111111111111111111111111111111",
                       amount := "100", reference := "ref-1",
                       confirmationPolicy := ⟨2⟩, status := CONFIRMED },
           status := CONFIRMED, txHash := some "0xabc", confirmations := none,
           lastCheckedAt := none, updatedAt := 0 })], []⟩).2 ).events.length = 1
    ∧ (getIntentRow
        (updateIntentStatus "i" CONFIRMED { status := CONFIRMED, confirmations := some 5 } 7
          ⟨[("i",
             { intent := { id := "i", createdAt := 0, expiresAt := 1000,
                           chainId := "eip155:421614",
                           asset := ⟨"ETH", 18, .native, none⟩,
                           recipient := "0x1111111111111111111111111111111111111111",
                           amount := "100", reference := "ref-1",
                           confirmationPolicy := ⟨2⟩, status := CONFIRMED },
               status := CONFIRMED, txHash := some "0xabc", confirmations := none,
               lastCheckedAt := none, updatedAt := 0 })], []⟩).2 "i").map
        (fun r => r.confirmations) = some (some 5) := by
  refine ⟨by decide, by decide, by decide⟩

/-- C8 amended: once a stored intent is terminal, every
`updateIntentStatus` call for it returns false and can never change the
stored status or intent JSON; a call whose target *differs* from the
terminal status leaves the whole store untouched (no row write, no
event), while a call restating the terminal status still merges
txHash/confirmations, stamps lastCheckedAt, and appends an audit
event. -/
theorem c8_terminal_state_frozen :
    ∀ (s : DbState) (id : String) (st : PaymentStatus) (v : VerificationResult)
      (now : Int) (row : StoredIntentRow),
      getIntentRow s id = some row → isTerminal row.status = true →
      (updateIntentStatus id st v now s).1 = false
      ∧ (∃ row', getIntentRow (updateIntentStatus id st v now s).2 id = some row'
           ∧ row'.status = row.status ∧ row'.intent = row.intent)
      ∧ (st ≠ row.status → updateIntentStatus id st v now s = (false, s))
      ∧ (st = row.status →
          getIntentRow (updateIntentStatus id st v now s).2 id =
            some { intent := row.intent
                   status := row.status
                   txHash := v.txHash.orElse (fun _ => row.txHash)
                   confirmations := v.confirmations.orElse (fun _ => row.confirmations)
                   lastCheckedAt := some now
                   updatedAt := now }
          ∧ (updateIntentStatus id st v now s).2.events =
              s.events ++ [⟨id, "INTENT_VERIFIED",
                ⟨row.status, v.txHash.orElse (fun _ => row.txHash),
                 v.confirmations.orElse (fun _ => row.confirmations),
                 v.reason, v.errorCode, now⟩⟩]) := by
  intro s id st v now row hrow hterm
  have hct : canTransition row.status st = false := canTransition_of_terminal _ _ hterm
  by_cases hst : st = row.status
  · have hmvb : (decide (row.status = st) || canTransition row.status st) = true := by
      simp [hst]
    rcases getIntentRow_find s id row hrow with ⟨kv, hkv, hkv2⟩
    refine ⟨?_, ?_, ?_, ?_⟩
    · rw [updateIntentStatus_apply s id st v now row hrow hmvb]
      simp [hst]
    · rw [updateIntentStatus_apply s id st v now row hrow hmvb]
      refine ⟨_, by rw [getIntentRow_map_update, hkv]; rfl, ?_, ?_⟩ <;>
        simp [hst]
    · intro h
      exact absurd hst h
    · intro _
      rw [updateIntentStatus_apply s id st v now row hrow hmvb]
      constructor
      · rw [getIntentRow_map_update, hkv]
        simp [hst]
      · simp [hst]
  · have hmvb : (decide (row.status = st) || canTransition row.status st) = false := by
      simp [hct]
      exact fun h => hst h.symm
    have hnoop := updateIntentStatus_noop_illegal s id st v now row hrow hmvb
    refine ⟨?_, ⟨row, ?_, rfl, rfl⟩, ?_, ?_⟩
    · rw [hnoop]
    · rw [hnoop]
      exact hrow
    · intro _
      exact hnoop
    · intro h
      exact absurd h hst

/-- Closed instantiation of `c8_terminal_state_frozen`: a PENDING-target
call on a CONFIRMED row reports false and leaves the store untouched. -/
theorem c8_terminal_state_frozen_witness :
    (updateIntentStatus "i" PENDING { status := PENDING } 9
      ⟨[("i",
         { intent := { id := "i", createdAt := 0, expiresAt := 1000,
                       chainId := "eip155:421614",
                       asset := ⟨"ETH", 18, .native, none⟩,
                       recipient := "0x1111111111111111111111111111111111111111",
                       amount := "100", reference := "ref-1",
                       confirmationPolicy := ⟨2⟩, status := CONFIRMED },
           status := CONFIRMED, txHash := some "0xabc", confirmations := some 3,
           lastCheckedAt := some 4, updatedAt := 4 })], []⟩) =
      (false,
       ⟨[("i",
          { intent := { id := "i", createdAt := 0, expiresAt := 1000,
                        chainId := "eip155:421614",
                        asset := ⟨"ETH", 18, .native, none⟩,
                        recipient := "0x1111111111111111111111111111111111111111",
                        amount := "100", reference := "ref-1",
                        confirmationPolicy := ⟨2⟩, status := CONFIRMED },
            status := CONFIRMED, txHash := some "0xabc", confirmations := some 3,
            lastCheckedAt := some 4, updatedAt := 4 })], []⟩) := by
  have h := c8_terminal_state_frozen
    ⟨[("i",
       { intent := { id := "i", createdAt := 0, expiresAt := 1000,
                     chainId := "eip155:421614",
                     asset := ⟨"ETH", 18, .native, none⟩,
                     recipient := "0x1111111111111111111111111111111111111111",
                     amount := "100", reference := "ref-1",
                     confirmationPolicy := ⟨2⟩, status := CONFIRMED },
         status := CONFIRMED, txHash := some "0xabc", confirmations := some 3,
         lastCheckedAt := some 4, updatedAt := 4 })], []⟩
    "i" PENDING { status := PENDING } 9
    { intent := { id := "i", createdAt := 0, expiresAt := 1000,
                  chainId := "eip155:421614",
                  asset := ⟨"ETH", 18, .native, none⟩,
                  recipient := "0x1111111111111111111111111111111111111111",
                  amount := "100", reference := "ref-1",
                  confirmationPolicy := ⟨2⟩, status := CONFIRMED },
      status := CONFIRMED, txHash := some "0xabc", confirmations := some 3,
      lastCheckedAt := some 4, updatedAt := 4 }
    (by rfl) (by decide)
  exact h.2.2.1 (by decide)

/-- C10: every intent `createIntent` successfully returns carries
`chainId` equal to the adapter's configured CAIP-2 id ("eip155:" ++
expectedChainId) — supplied or defaulted — and therefore the
intent-level CHAIN_MISMATCH branch of the same adapter's `verify` is
never taken: `verify` on such an intent always proceeds to the rest of
the pipeline. -/
theorem c10_created_intent_never_intent_mismatch :
    ∀ (cfg : AdapterConfig) (referenceUsed : String → Bool) (sysNow nowT : Int)
      (newId : String) (input : CreateIntentInput) (intent : PaymentIntent),
      createIntent cfg referenceUsed sysNow nowT newId input = .ok intent →
      intent.chainId = cfg.expectedCaip2
      ∧ (∀ (client : EvmClient) (now : Int),
          verify cfg client now intent = verifyRest cfg client now intent) := by
  intro cfg referenceUsed sysNow nowT newId input intent h
  have hchain : intent.chainId = cfg.expectedCaip2 := by
    unfold createIntent at h
    cases hval : validateCreateIntentInput sysNow input with
    | error e =>
      rw [hval] at h
      simp [Bind.bind, Except.bind] at h
    | ok u =>
      cases u
      rw [hval] at h
      simp only [Bind.bind, Except.bind] at h
      by_cases hch : input.chainId.getD cfg.expectedCaip2 = cfg.expectedCaip2
      · rw [if_neg (by simpa using hch)] at h
        by_cases href : referenceUsed input.reference = true
        · rw [if_pos href] at h
          exact absurd h (by simp)
        · rw [if_neg href] at h
          cases hexp : input.expiresAt with
          | none =>
            rw [hexp] at h
            exact absurd h (by simp)
          | some e =>
            rw [hexp] at h
            dsimp only at h
            by_cases hle : e ≤ nowT
            · rw [if_pos hle] at h
              exact absurd h (by simp)
            · rw [if_neg hle] at h
              have hiq := (Except.ok.injEq _ _).mp h.symm
              rw [hiq]
              exact hch
      · rw [if_pos (by simpa using hch)] at h
        exact absurd h (by simp)
  refine ⟨hchain, ?_⟩
  intro client now
  unfold verify
  rw [if_neg (by simp [hchain])]

/-- Closed instantiation of
`c10_created_intent_never_intent_mismatch`: a creation input omitting
`chainId` yields an intent on the adapter's configured chain, and
`verify` on it skips the intent-level mismatch branch. -/
theorem c10_created_intent_never_intent_mismatch_witness :
    createIntent ⟨500, 421614, fun s => s⟩ (fun _ => false) 0 0 "id-1"
        ⟨none, ⟨"ETH", 18, .native, none⟩,
         "0x1111111111111111111111111111111111111111", "1000", "order-1",
         some 100, none⟩ =
      .ok { id := "id-1", createdAt := 0, expiresAt := 100,
            chainId := "eip155:421614",
            asset := ⟨"ETH", 18, .native, none⟩,
            recipient := "0x1111111111111111111111111111111111111111",
            amount := "1000", reference := "order-1",
            confirmationPolicy := ⟨2⟩, status := PENDING }
    ∧ ({ id := "id-1", createdAt := 0, expiresAt := 100,
         chainId := "eip155:421614",
         asset := ⟨"ETH", 18, .native, none⟩,
         recipient := "0x1111111111111111111111111111111111111111",
         amount := "1000", reference := "order-1",
         confirmationPolicy := ⟨2⟩, status := PENDING } : PaymentIntent).chainId =
        AdapterConfig.expectedCaip2 ⟨500, 421614, fun s => s⟩
    ∧ verify ⟨500, 421614, fun s => s⟩
        ⟨.ok 421614, .ok 100, fun _ => .ok ⟨[]⟩, fun _ => .ok []⟩ 5
        { id := "id-1", createdAt := 0, expiresAt := 100,
          chainId := "eip155:421614",
          asset := ⟨"ETH", 18, .native, none⟩,
          recipient := "0x1111111111111111111111111111111111111111",
          amount := "1000", reference := "order-1",
          confirmationPolicy := ⟨2⟩, status := PENDING } =
      verifyRest ⟨500, 421614, fun s => s⟩
        ⟨.ok 421614, .ok 100, fun _ => .ok ⟨[]⟩, fun _ => .ok []⟩ 5
        { id := "id-1", createdAt := 0, expiresAt := 100,
          chainId := "eip155:421614",
          asset := ⟨"ETH", 18, .native, none⟩,
          recipient := "0x1111111111111111111111111111111111111111",
          amount := "1000", reference := "order-1",
          confirmationPolicy := ⟨2⟩, status := PENDING } := by
  refine ⟨by decide, ?_, ?_⟩
  · exact (c10_created_intent_never_intent_mismatch ⟨500, 421614, fun s => s⟩
      (fun _ => false) 0 0 "id-1"
      ⟨none, ⟨"ETH", 18, .native, none⟩,
       "0x1111111111111111111111111111111111111111", "1000", "order-1",
       some 100, none⟩
      { id := "id-1", createdAt := 0, expiresAt := 100,
        chainId := "eip155:421614",
        asset := ⟨"ETH", 18, .native, none⟩,
        recipient := "0x1111111111111111111111111111111111111111",
        amount := "1000", reference := "order-1",
        confirmationPolicy := ⟨2⟩, status := PENDING }
      (by decide)).1
  · exact (c10_created_intent_never_intent_mismatch ⟨500, 421614, fun s => s⟩
      (fun _ => false) 0 0 "id-1"
      ⟨none, ⟨"ETH", 18, .native, none⟩,
       "0x1111111111111111111111111111111111111111", "1000", "order-1",
       some 100, none⟩
      { id := "id-1", createdAt := 0, expiresAt := 100,
        chainId := "eip155:421614",
        asset := ⟨"ETH", 18, .native, none⟩,
        recipient := "0x1111111111111111111111111111111111111111",
        amount := "1000", reference := "order-1",
        confirmationPolicy := ⟨2⟩, status := PENDING }
      (by decide)).2 ⟨.ok 421614, .ok 100, fun _ => .ok ⟨[]⟩, fun _ => .ok []⟩ 5

/-- On a chain client answering from a pure block table, the native
scan loop is exactly a newest-first `findSome?` over the descending
block list, paired with confirmations from the containing block. -/
theorem nativeScanLoop_eq_findSome (client : EvmClient) (blocksF : Int → List EvmTransaction)
    (normalize : String → String) (recipient : String) (minimumAmount : Int)
    (currentBlock : Int)
    (hcb : ∀ b, client.getBlock b = .ok ⟨blocksF b⟩)
    (hwf : blocksWellFormed blocksF) :
    ∀ (n : Nat) (b : Int), (n : Int) ≤ b + 1 →
      nativeScanLoop client normalize recipient minimumAmount currentBlock n b =
        .ok (((descRangeLen b n).findSome?
          (fun blk => ((blocksF blk).find?
              (nativeTxMatches normalize recipient minimumAmount)).map
            (fun tx => (blk, tx)))).map
          (fun p => (p.2.hash, currentBlock - p.1 + 1))) := by
  intro n
  induction n with
  | zero =>
    intro b hb
    simp [nativeScanLoop, descRangeLen]
  | succ n ih =>
    intro b hb
    rw [nativeScanLoop, hcb b]
    simp only [Bind.bind, Except.bind]
    cases hfind : (blocksF b).find? (nativeTxMatches normalize recipient minimumAmount) with
    | some tx =>
      have hbn : tx.blockNumber = some b := hwf b tx (List.mem_of_find?_eq_some hfind)
      dsimp only
      rw [hbn]
      simp [descRangeLen, List.findSome?_cons, hfind]
    | none =>
      dsimp only
      by_cases hb0 : b = 0
      · subst hb0
        have hn : n = 0 := by omega
        subst hn
        simp [descRangeLen, List.findSome?_cons, hfind]
      · rw [if_neg hb0, ih (b - 1) (by omega)]
        simp [descRangeLen, List.findSome?_cons, hfind]

/-- Membership bounds of the descending block list. -/
theorem mem_descRangeLen : ∀ (n : Nat) (b blk : Int),
    blk ∈ descRangeLen b n ↔ (blk ≤ b ∧ b - n < blk) := by
  intro n
  induction n with
  | zero =>
    intro b blk
    simp [descRangeLen]
  | succ n ih =>
    intro b blk
    simp [descRangeLen, ih (b - 1) blk]
    omega

/-- `verifyNative` on a pure, well-formed chain equals the spec-side
newest-first window scan with its classification. -/
theorem verifyNative_eq_spec (cfg : AdapterConfig) (client : EvmClient)
    (blocksF : Int → List EvmTransaction) (intent : PaymentIntent) (latest floor : Int)
    (hcb : ∀ b, client.getBlock b = .ok ⟨blocksF b⟩)
    (hwf : blocksWellFormed blocksF) (h0 : 0 ≤ floor) (hfl : floor ≤ latest) :
    verifyNative cfg client intent latest floor =
      .ok (specNativeOutcome blocksF cfg.normalize (cfg.normalize intent.recipient)
        (toBigIntM intent.amount) latest floor intent.confirmationPolicy.minConfirmations) := by
  unfold verifyNative
  dsimp only
  rw [nativeScanLoop_eq_findSome client blocksF cfg.normalize _ _ latest hcb hwf
    ((latest - floor + 1).toNat) latest (by omega)]
  simp only [Bind.bind, Except.bind]
  unfold specNativeOutcome
  cases hF : (descRangeLen latest ((latest - floor + 1).toNat)).findSome?
      (fun blk => ((blocksF blk).find?
          (nativeTxMatches cfg.normalize (cfg.normalize intent.recipient)
            (toBigIntM intent.amount))).map
        (fun tx => (blk, tx))) with
  | none => simp [hF]
  | some p =>
    rcases p with ⟨blk, tx⟩
    simp only [hF, Option.map_some]
    by_cases hc : latest - blk + 1 ≥ intent.confirmationPolicy.minConfirmations <;>
      simp [hc]

/-- `findSome?` misses when every element maps to `none`. -/
theorem findSome_none_of_all {α β : Type} (f : α → Option β) :
    ∀ l : List α, (∀ a ∈ l, f a = none) → l.findSome? f = none := by
  intro l
  induction l with
  | nil => intro _; simp
  | cons a l ih =>
    intro h
    rw [List.findSome?_cons, h a (by simp)]
    exact ih (fun x hx => h x (by simp [hx]))

/-- C4: on the native path over a pure, well-formed chain with latest
block `L`, the scan window floor is `max 0 (L − scanBlocks)`;
`verifyNative` equals the spec-side newest-first window scan — the
first qualifying transaction (normalized recipient match, value ≥
amount) in the newest block holding one, with confirmations
`L − matchBlock + 1` — classified as CONFIRMED when confirmations reach
`minConfirmations`, DETECTED/CONFIRMATION_PENDING when short, and
PENDING when the window holds no qualifying transfer (so matches older
than the floor are never found); the erc20 log path classifies its
matched log the same way. -/
theorem c4_native_scan_and_classification :
    ∀ (cfg : AdapterConfig) (client : EvmClient) (blocksF : Int → List EvmTransaction)
      (intent : PaymentIntent) (latest : Int),
      (∀ b, client.getBlock b = .ok ⟨blocksF b⟩) → blocksWellFormed blocksF →
      0 ≤ latest → 0 ≤ cfg.scanBlocks →
      (computeScanRange latest cfg.scanBlocks).1 = max 0 (latest - cfg.scanBlocks)
      ∧ verifyNative cfg client intent latest (computeScanRange latest cfg.scanBlocks).1 =
          .ok (specNativeOutcome blocksF cfg.normalize (cfg.normalize intent.recipient)
            (toBigIntM intent.amount) latest (computeScanRange latest cfg.scanBlocks).1
            intent.confirmationPolicy.minConfirmations)
      ∧ ((∀ blk, (computeScanRange latest cfg.scanBlocks).1 ≤ blk → blk ≤ latest →
            (blocksF blk).find? (nativeTxMatches cfg.normalize
              (cfg.normalize intent.recipient) (toBigIntM intent.amount)) = none) →
          verifyNative cfg client intent latest (computeScanRange latest cfg.scanBlocks).1 =
            .ok { status := PENDING,
                  reason := some "matching transaction not found in scan range" })
      ∧ (∀ (logs : List Erc20TransferLog) (rawContract : String),
          intent.asset.contractAddress = some rawContract →
          client.getLogs (buildErc20TransferLogQuery (cfg.normalize rawContract)
            (cfg.normalize intent.recipient)
            (computeScanRange latest cfg.scanBlocks).1 latest) = .ok logs →
          (logs.find? (erc20LogMatches cfg.normalize (cfg.normalize intent.recipient)
              (toBigIntM intent.amount)) = none →
            verifyErc20 cfg client intent latest (computeScanRange latest cfg.scanBlocks).1 =
              .ok { status := PENDING,
                    reason := some "matching transfer not found in scan range" })
          ∧ (∀ entry mb th,
              logs.find? (erc20LogMatches cfg.normalize (cfg.normalize intent.recipient)
                (toBigIntM intent.amount)) = some entry →
              entry.blockNumber = some mb → entry.transactionHash = some th →
              verifyErc20 cfg client intent latest
                  (computeScanRange latest cfg.scanBlocks).1 =
                .ok (if latest - mb + 1 ≥ intent.confirmationPolicy.minConfirmations then
                  { status := CONFIRMED, txHash := some th,
                    confirmations := some (latest - mb + 1) }
                else
                  { status := DETECTED, txHash := some th,
                    confirmations := some (latest - mb + 1),
                    reason := some "confirmation policy not yet met",
                    errorCode := some .CONFIRMATION_PENDING }))) := by
  intro cfg client blocksF intent latest hcb hwf hl hsb
  have hfloor0 : 0 ≤ (computeScanRange latest cfg.scanBlocks).1 := by
    simp only [computeScanRange]
    split <;> omega
  have hfloorle : (computeScanRange latest cfg.scanBlocks).1 ≤ latest := by
    simp only [computeScanRange]
    split <;> omega
  refine ⟨?_, ?_, ?_, ?_⟩
  · simp only [computeScanRange]
    split <;> omega
  · exact verifyNative_eq_spec cfg client blocksF intent latest _ hcb hwf hfloor0 hfloorle
  · intro hnone
    rw [verifyNative_eq_spec cfg client blocksF intent latest _ hcb hwf hfloor0 hfloorle]
    unfold specNativeOutcome
    rw [findSome_none_of_all]
    intro blk hblk
    rw [mem_descRangeLen] at hblk
    have hcast : ((latest - (computeScanRange latest cfg.scanBlocks).1 + 1).toNat : Int) =
        latest - (computeScanRange latest cfg.scanBlocks).1 + 1 := by
      omega
    rw [hnone blk (by omega) hblk.1]
    rfl
  · intro logs rawContract hca hlogs
    constructor
    · intro hfind
      unfold verifyErc20
      rw [hca]
      dsimp only
      rw [hlogs]
      dsimp only
      rw [hfind]
    · intro entry mb th hfind hmb hth
      unfold verifyErc20
      rw [hca]
      dsimp only
      rw [hlogs]
      dsimp only
      rw [hfind]
      dsimp only
      rw [hmb, hth]
      dsimp only
      by_cases hc : latest - mb + 1 ≥ intent.confirmationPolicy.minConfirmations <;>
        simp [hc]

/-- Closed instantiation of `c4_native_scan_and_classification`
(spec section 8 Scenario A): latest block 100, scanBlocks 10, a value-100
transfer to the recipient in block 99, minConfirmations 2 — CONFIRMED
with 2 confirmations. -/
theorem c4_native_scan_and_classification_witness :
    verifyNative ⟨10, 421614, fun s => s⟩
        ⟨.ok 421614, .ok 100,
         fun b => .ok ⟨if b = 99 then
             [⟨"0xabc", some "0x1111111111111111111111111111111111111111", 100, some 99⟩]
           else []⟩,
         fun _ => .ok []⟩
        { id := "i1", createdAt := 0, expiresAt := 1000, chainId := "eip155:421614",
          asset := ⟨"ETH", 18, .native, none⟩,
          recipient := "0x1111111111111111111111111111111111111111",
          amount := "100", reference := "ref-1",
          confirmationPolicy := ⟨2⟩, status := PENDING }
        100 (computeScanRange 100 10).1 =
      .ok { status := CONFIRMED, txHash := some "0xabc", confirmations := some 2 } := by
  have h := (c4_native_scan_and_classification ⟨10, 421614, fun s => s⟩
      ⟨.ok 421614, .ok 100,
       fun b => .ok ⟨if b = 99 then
           [⟨"0xabc", some "0x1111111111111111111111111111111111111111", 100, some 99⟩]
         else []⟩,
       fun _ => .ok []⟩
      (fun b => if b = 99 then
          [⟨"0xabc", some "0x1111111111111111111111111111111111111111", 100, some 99⟩]
        else [])
      { id := "i1", createdAt := 0, expiresAt := 1000, chainId := "eip155:421614",
        asset := ⟨"ETH", 18, .native, none⟩,
        recipient := "0x1111111111111111111111111111111111111111",
        amount := "100", reference := "ref-1",
        confirmationPolicy := ⟨2⟩, status := PENDING }
      100
      (fun b => rfl)
      (by
        intro b tx htx
        by_cases hb : b = (99 : Int)
        · subst hb
          simp at htx
          subst htx
          rfl
        · simp [hb] at htx)
      (by decide) (by decide)).2.1
  rw [h]
  decide
